import Mathlib

/-!
Verification model of the rate-limited asset-generation tool of the
youtube-shorts-maker repository
(`youtube_shorts_maker/sub_agents/asset_generator/image_generator/image_builder/tools.py`).

The two functions embedded here are `generate_image_with_retry` and
`generate_images`.  Python strings are modelled as `List Char` where slicing
matters (prompts) and as `String` where only equality matters (filenames).
Python `int` is `Int`.  Network and artifact-store side effects are made
explicit in trace records; exceptions are explicit error values.
-/

/-- Result of one call to `client.images.generate`: either a response whose
`data[0].b64_json` is the given base64 string, a raised `RateLimitError`, or
any other raised error (carrying an identifying code). -/
inductive ApiResult where
  | ok (b64_json : String)
  | rateLimit
  | otherError (code : Nat)
deriving Repr, DecidableEq

/-- How one invocation of `generate_image_with_retry` ends: a normal return of
decoded bytes, a propagated `RateLimitError`, a propagated other error, or the
implicit Python `return None` when the `for` loop falls through. -/
inductive RetryOutcome where
  | returned (image_bytes : List Nat)
  | raisedRateLimit
  | raisedOther (code : Nat)
  | returnedNone
deriving Repr, DecidableEq

/-- Observable behaviour of one invocation of `generate_image_with_retry`:
the number of `client.images.generate` calls made, the list of
`asyncio.sleep` durations awaited (in order), and how it ended. -/
structure RetryTrace where
  calls : Nat
  sleeps : List Nat
  outcome : RetryOutcome
deriving Repr, DecidableEq

/-- Value of a single base64 alphabet character (model of the table used by
`base64.b64decode`). -/
def b64charVal (c : Char) : Option Nat :=
  let n := c.toNat
  if 65 ≤ n ∧ n ≤ 90 then some (n - 65)
  else if 97 ≤ n ∧ n ≤ 122 then some (n - 97 + 26)
  else if 48 ≤ n ∧ n ≤ 57 then some (n - 48 + 52)
  else if n = 43 then some 62
  else if n = 47 then some 63
  else none

/-- Base64 decoding of a character stream, in groups of four characters with
trailing padding, as performed by `base64.b64decode`. -/
def b64decodeChars : List Char → List Nat
  | a :: b :: c :: d :: rest =>
    match b64charVal a, b64charVal b with
    | some va, some vb =>
      let byte1 := va * 4 + vb / 16
      if c = Char.ofNat 61 then [byte1]
      else
        match b64charVal c with
        | some vc =>
          let byte2 := vb % 16 * 16 + vc / 4
          if d = Char.ofNat 61 then [byte1, byte2]
          else
            match b64charVal d with
            | some vd => byte1 :: byte2 :: (vc % 4 * 64 + vd) :: b64decodeChars rest
            | none => []
        | none => []
    | _, _ => []
  | _ => []

/-- Model of `base64.b64decode` on the `b64_json` payload: bytes as `Nat`s. -/
def b64decode (s : String) : List Nat :=
  b64decodeChars s.data

/-- Model of Python `range(n)` over `int`, as the list of attempt indices the
`for attempt in range(max_retries)` loop iterates over. -/
def intRange (n : Int) : List Int :=
  (List.range n.toNat).map (fun i : Nat => (i : Int))

/-- Body of the `for attempt in range(max_retries)` loop of
`generate_image_with_retry`, iterating over the remaining attempt indices.
A successful call decodes `b64_json` and returns; a `RateLimitError` with
`attempt < max_retries - 1` sleeps 15 seconds and continues; a `RateLimitError`
on the last allowed attempt re-raises; any other error propagates uncaught.
Falling out of the loop returns Python `None`. -/
def retryLoop (client : Int → ApiResult) (max_retries : Int) : List Int → RetryTrace
  | [] => ⟨0, [], RetryOutcome.returnedNone⟩
  | attempt :: rest =>
    match client attempt with
    | ApiResult.ok b64_json => ⟨1, [], RetryOutcome.returned (b64decode b64_json)⟩
    | ApiResult.otherError code => ⟨1, [], RetryOutcome.raisedOther code⟩
    | ApiResult.rateLimit =>
      if attempt < max_retries - 1 then
        let t := retryLoop client max_retries rest
        ⟨t.calls + 1, 15 :: t.sleeps, t.outcome⟩
      else
        ⟨1, [], RetryOutcome.raisedRateLimit⟩

/-- `generate_image_with_retry(client, enhanced_prompt, scene_id, max_retries)`:
the attempt loop over `range(max_retries)`.  The client is modelled as the
result of the generation call at each attempt index (the prompt and scene id
only parameterise the client and diagnostics, not the control flow). -/
def generate_image_with_retry (client : Int → ApiResult) (max_retries : Int) : RetryTrace :=
  retryLoop client max_retries (intRange max_retries)

/-- One element of `prompt_builder_output["optimized_prompts"]`. -/
structure SceneRequest where
  scene_id : Int
  enhanced_prompt : List Char
deriving Repr, DecidableEq

/-- The derived artifact filename `scene_{scene_id}_image.jpeg`. -/
def artifactFilename (sid : Int) : String :=
  "scene_" ++ toString sid ++ "_image.jpeg"

/-- One record of the `generated_images` list in the returned summary. -/
structure GeneratedImageRecord where
  scene_id : Int
  prompt : List Char
  filename : String
deriving Repr, DecidableEq

/-- The dict returned by `generate_images`. -/
structure GenerationSummary where
  total_images : Nat
  generated_images : List GeneratedImageRecord
  status : String
deriving Repr, DecidableEq

/-- Python exceptions that `generate_images` can raise in the model:
`AttributeError` (calling `.get` on `None`), `TypeError` (iterating `None`),
`RateLimitError` propagated from the retry helper, any other API error, and
`KeyError` (documented in the docstring, listed so its absence is provable). -/
inductive PyError where
  | attributeError
  | typeError
  | rateLimitError
  | apiError (code : Nat)
  | keyError
deriving Repr, DecidableEq

/-- The summary record appended for a scene in both branches of the loop:
scene id, prompt truncated to its first 100 characters, derived filename. -/
def mkRecord (p : SceneRequest) : GeneratedImageRecord :=
  ⟨p.scene_id, p.enhanced_prompt.take 100, artifactFilename p.scene_id⟩

/-- Model of the `ToolContext` as `generate_images` uses it:
`state.get("prompt_builder_output")` (outer `none` = key absent) and, inside
it, `.get("optimized_prompts")` (inner `none` = field absent);
`list_artifacts()` returning the existing filenames; and the generation
client, giving the API result for each scene id and attempt index. -/
structure ToolContext where
  prompt_builder_output : Option (Option (List SceneRequest))
  artifacts : List String
  client : Int → Int → ApiResult

/-- Accumulated behaviour of the per-scene loop of `generate_images`:
its outcome, the invocations of `generate_image_with_retry` (scene id and the
full prompt passed), the total number of `client.images.generate` calls, the
sleep durations awaited, and the `save_artifact` writes performed
(filename and blob data, `none` being Python `None` bytes). -/
structure SceneLoopResult where
  result : Except PyError (List GeneratedImageRecord)
  genCalls : List (Int × List Char)
  apiCalls : Nat
  sleeps : List Nat
  saves : List (String × Option (List Nat))

/-- The `for prompt in optimized_prompts` loop of `generate_images`:
skip (appending a record) when the derived filename is in the existing
listing, otherwise generate via `generate_image_with_retry` with the default
`max_retries = 5`, save the artifact, and append the same record; an exception
from the helper aborts the loop, keeping the side effects performed so far. -/
def processScenes (client : Int → Int → ApiResult) (existing : List String) :
    List SceneRequest → SceneLoopResult
  | [] => ⟨Except.ok [], [], 0, [], []⟩
  | p :: rest =>
    let filename := artifactFilename p.scene_id
    if filename ∈ existing then
      let r := processScenes client existing rest
      ⟨r.result.map (fun recs => mkRecord p :: recs), r.genCalls, r.apiCalls, r.sleeps, r.saves⟩
    else
      let t := generate_image_with_retry (client p.scene_id) 5
      match t.outcome with
      | RetryOutcome.returned image_bytes =>
        let r := processScenes client existing rest
        ⟨r.result.map (fun recs => mkRecord p :: recs),
         (p.scene_id, p.enhanced_prompt) :: r.genCalls,
         t.calls + r.apiCalls,
         t.sleeps ++ r.sleeps,
         (filename, some image_bytes) :: r.saves⟩
      | RetryOutcome.returnedNone =>
        let r := processScenes client existing rest
        ⟨r.result.map (fun recs => mkRecord p :: recs),
         (p.scene_id, p.enhanced_prompt) :: r.genCalls,
         t.calls + r.apiCalls,
         t.sleeps ++ r.sleeps,
         (filename, none) :: r.saves⟩
      | RetryOutcome.raisedRateLimit =>
        ⟨Except.error PyError.rateLimitError,
         [(p.scene_id, p.enhanced_prompt)], t.calls, t.sleeps, []⟩
      | RetryOutcome.raisedOther code =>
        ⟨Except.error (PyError.apiError code),
         [(p.scene_id, p.enhanced_prompt)], t.calls, t.sleeps, []⟩

/-- Observable side effects of one `generate_images` invocation:
whether `list_artifacts()` was called, plus the per-scene loop's effects. -/
structure GenTrace where
  listedArtifacts : Bool
  genCalls : List (Int × List Char)
  apiCalls : Nat
  sleeps : List Nat
  saves : List (String × Option (List Nat))

/-- `generate_images(tool_context)`.  Line by line:
`state.get("prompt_builder_output")` returns `None` when absent, so the
following `.get("optimized_prompts")` raises `AttributeError`; otherwise
`list_artifacts()` is awaited; a `None` `optimized_prompts` then raises
`TypeError` when the `for` loop starts; otherwise the loop runs and the
summary dict is returned with `status: "complete"`. -/
def generate_images (ctx : ToolContext) : Except PyError GenerationSummary × GenTrace :=
  match ctx.prompt_builder_output with
  | none =>
    (Except.error PyError.attributeError, ⟨false, [], 0, [], []⟩)
  | some optimized_prompts =>
    let existing := ctx.artifacts
    match optimized_prompts with
    | none =>
      (Except.error PyError.typeError, ⟨true, [], 0, [], []⟩)
    | some prompts =>
      let r := processScenes ctx.client existing prompts
      match r.result with
      | Except.ok recs =>
        (Except.ok ⟨recs.length, recs, "complete"⟩,
         ⟨true, r.genCalls, r.apiCalls, r.sleeps, r.saves⟩)
      | Except.error e =>
        (Except.error e, ⟨true, r.genCalls, r.apiCalls, r.sleeps, r.saves⟩)

example : b64decode "aGk=" = [104, 105] := by decide
example : b64decode "aGV5" = [104, 101, 121] := by decide
example : intRange 3 = [0, 1, 2] := by decide
example : artifactFilename 2 = "scene_2_image.jpeg" := by decide

/-! ## Helper lemmas about the retry loop -/

lemma intRange_five : intRange 5 = [0, 1, 2, 3, 4] := by decide

/-- A client that succeeds on its first attempt makes exactly one call,
never sleeps, and returns the decoded payload (default `max_retries = 5`). -/
lemma retry_first_ok (client : Int → ApiResult) (s : String)
    (h : client 0 = ApiResult.ok s) :
    generate_image_with_retry client 5 = ⟨1, [], RetryOutcome.returned (b64decode s)⟩ := by
  unfold generate_image_with_retry
  rw [intRange_five]
  simp [retryLoop, h]

/-- One rate-limited, non-final attempt adds one call and one 15-second sleep
in front of the rest of the loop. -/
lemma retryLoop_cons_rl (client : Int → ApiResult) (m : Int) (a : Int) (l : List Int)
    (h1 : client a = ApiResult.rateLimit) (h2 : a < m - 1) :
    retryLoop client m (a :: l) =
      ⟨(retryLoop client m l).calls + 1, 15 :: (retryLoop client m l).sleeps,
       (retryLoop client m l).outcome⟩ := by
  simp [retryLoop, h1, h2]

/-- Running the loop over a block of attempts that all hit the rate limit and
are not last prepends one call and one 15-second sleep per attempt. -/
lemma retryLoop_rl_append (client : Int → ApiResult) (m : Int) (pre suf : List Int)
    (h : ∀ a ∈ pre, client a = ApiResult.rateLimit ∧ a < m - 1) :
    retryLoop client m (pre ++ suf) =
      ⟨pre.length + (retryLoop client m suf).calls,
       List.replicate pre.length 15 ++ (retryLoop client m suf).sleeps,
       (retryLoop client m suf).outcome⟩ := by
  induction pre with
  | nil => simp
  | cons a pre ih =>
    have ha := h a (by simp)
    have ih2 := ih (fun b hb => h b (by simp [hb]))
    rw [List.cons_append, retryLoop_cons_rl client m a (pre ++ suf) ha.1 ha.2, ih2]
    simp only [List.length_cons, List.replicate_succ, List.cons_append,
      RetryTrace.mk.injEq, and_true]
    omega

/-- `range(m)` splits as the attempts below `k`, then attempt `k`, then a
remainder, whenever `k < m`. -/
lemma intRange_decompose (m : Int) (k : Nat) (hk : (k : Int) < m) :
    ∃ suf, intRange m =
      (List.range k).map (fun i : Nat => (i : Int)) ++ ((k : Int) :: suf) := by
  obtain ⟨r, hr⟩ : ∃ r, m.toNat = k + (r + 1) := ⟨m.toNat - k - 1, by omega⟩
  refine ⟨(((List.range r).map Nat.succ).map (fun x => k + x)).map
    (fun i : Nat => (i : Int)), ?_⟩
  unfold intRange
  rw [hr, List.range_add, List.range_succ_eq_map]
  simp only [List.map_append, List.map_cons, Nat.add_zero]

/-! ## Claim theorems about `generate_image_with_retry` -/

/-- Claim C5: a client that raises a rate-limit error on attempts 0 and 1 and
succeeds on attempt 2 with a base64 payload makes the retry helper (with the
default `max_retries = 5`) return the decoded bytes of that payload after
exactly 3 generation calls (nothing after the success) and exactly two
15-second sleeps. -/
theorem retry_rate_limit_then_success (client : Int → ApiResult) (s : String)
    (h0 : client 0 = ApiResult.rateLimit) (h1 : client 1 = ApiResult.rateLimit)
    (h2 : client 2 = ApiResult.ok s) :
    generate_image_with_retry client 5 =
      ⟨3, [15, 15], RetryOutcome.returned (b64decode s)⟩ := by
  unfold generate_image_with_retry
  rw [intRange_five]
  norm_num [retryLoop, h0, h1, h2]

theorem retry_rate_limit_then_success_witness :
    (fun a => if a < 2 then ApiResult.rateLimit else ApiResult.ok "aGk=") 0 =
        ApiResult.rateLimit ∧
    generate_image_with_retry
        (fun a => if a < 2 then ApiResult.rateLimit else ApiResult.ok "aGk=") 5 =
      ⟨3, [15, 15], RetryOutcome.returned (b64decode "aGk=")⟩ :=
  ⟨by decide,
   retry_rate_limit_then_success _ "aGk=" (by decide) (by decide) (by decide)⟩

/-- Claim C6: a client that raises a rate-limit error on every attempt, with
`max_retries = 3`, makes the retry helper propagate the rate-limit error after
exactly 3 generation calls with exactly 2 intervening 15-second waits and no
wait after the final failed attempt. -/
theorem retry_exhaustion_three_attempts (client : Int → ApiResult)
    (h : ∀ i, client i = ApiResult.rateLimit) :
    generate_image_with_retry client 3 =
      ⟨3, [15, 15], RetryOutcome.raisedRateLimit⟩ := by
  unfold generate_image_with_retry
  have h3 : intRange 3 = [0, 1, 2] := by decide
  rw [h3]
  norm_num [retryLoop, h]

theorem retry_exhaustion_three_attempts_witness :
    (fun _ : Int => ApiResult.rateLimit) 0 = ApiResult.rateLimit ∧
    generate_image_with_retry (fun _ => ApiResult.rateLimit) 3 =
      ⟨3, [15, 15], RetryOutcome.raisedRateLimit⟩ :=
  ⟨rfl, retry_exhaustion_three_attempts _ (fun _ => rfl)⟩

/-- Claim C7: if the client rate-limits on every attempt before `k` and raises
a non-rate-limit error on attempt `k < max_retries`, the retry helper
propagates that error immediately: exactly `k + 1` generation calls (so none
after the error) and only the `k` sleeps from the earlier rate limits — no
retry and no wait for the non-rate-limit error itself. -/
theorem retry_other_error_immediate (client : Int → ApiResult) (m : Int)
    (k : Nat) (code : Nat) (hk : (k : Int) < m)
    (hrl : ∀ i : Nat, i < k → client i = ApiResult.rateLimit)
    (he : client k = ApiResult.otherError code) :
    generate_image_with_retry client m =
      ⟨k + 1, List.replicate k 15, RetryOutcome.raisedOther code⟩ := by
  obtain ⟨suf, hs⟩ := intRange_decompose m k hk
  unfold generate_image_with_retry
  rw [hs, retryLoop_rl_append]
  · simp [retryLoop, he, List.length_map, List.length_range]
  · intro a ha
    simp only [List.mem_map, List.mem_range] at ha
    obtain ⟨i, hi, rfl⟩ := ha
    exact ⟨hrl i hi, by omega⟩

theorem retry_other_error_immediate_witness :
    ((1 : Nat) : Int) < 5 ∧
    generate_image_with_retry
        (fun a => if a < 1 then ApiResult.rateLimit else ApiResult.otherError 7) 5 =
      ⟨2, [15], RetryOutcome.raisedOther 7⟩ :=
  ⟨by norm_num,
   retry_other_error_immediate _ 5 1 7 (by norm_num)
     (fun i hi => by
       have hz : i = 0 := by omega
       subst hz
       decide)
     (by decide)⟩

/-- Claim C10: with `max_retries = 0` (or any non-positive value) the attempt
loop of `generate_image_with_retry` never runs: zero generation calls, no
sleeps, no error, and the function falls through to Python's implicit
`return None` despite its declared `bytes` return type. -/
theorem retry_nonpositive_returns_none (client : Int → ApiResult) (m : Int)
    (h : m ≤ 0) :
    generate_image_with_retry client m = ⟨0, [], RetryOutcome.returnedNone⟩ := by
  unfold generate_image_with_retry intRange
  rw [Int.toNat_of_nonpos h]
  rfl

theorem retry_nonpositive_returns_none_witness :
    (0 : Int) ≤ 0 ∧
    generate_image_with_retry (fun _ => ApiResult.rateLimit) 0 =
      ⟨0, [], RetryOutcome.returnedNone⟩ :=
  ⟨le_refl 0, retry_nonpositive_returns_none _ 0 (le_refl 0)⟩

/-! ## Helper lemmas about the per-scene loop -/

/-- When every scene's artifact filename is already listed, the loop performs
no generation calls, no sleeps and no saves, and still produces one record per
scene in input order. -/
lemma processScenes_all_existing (client : Int → Int → ApiResult) (existing : List String)
    (l : List SceneRequest) (h : ∀ p ∈ l, artifactFilename p.scene_id ∈ existing) :
    processScenes client existing l = ⟨Except.ok (l.map mkRecord), [], 0, [], []⟩ := by
  induction l with
  | nil => rfl
  | cons p rest ih =>
    have hp := h p (by simp)
    have ih2 := ih (fun q hq => h q (by simp [hq]))
    simp [processScenes, hp, ih2, Except.map]

/-- When no scene's artifact filename is listed and the client succeeds on the
first attempt of every scene (payload given by `pay`), the loop makes one
generation call and one save per scene, no sleeps, and produces one record per
scene in input order. -/
lemma processScenes_all_fresh (client : Int → Int → ApiResult) (existing : List String)
    (pay : Int → String) (l : List SceneRequest)
    (hfresh : ∀ p ∈ l, artifactFilename p.scene_id ∉ existing)
    (hclient : ∀ p ∈ l, client p.scene_id 0 = ApiResult.ok (pay p.scene_id)) :
    processScenes client existing l =
      ⟨Except.ok (l.map mkRecord),
       l.map (fun p => (p.scene_id, p.enhanced_prompt)),
       l.length, [],
       l.map (fun p => (artifactFilename p.scene_id, some (b64decode (pay p.scene_id))))⟩ := by
  induction l with
  | nil => rfl
  | cons p rest ih =>
    have hp := hfresh p (by simp)
    have hc := hclient p (by simp)
    have ih2 := ih (fun q hq => hfresh q (by simp [hq])) (fun q hq => hclient q (by simp [hq]))
    have ht := retry_first_ok (client p.scene_id) (pay p.scene_id) hc
    simp [processScenes, hp, ht, ih2, Except.map, SceneLoopResult.mk.injEq]
    omega

/-- Whenever the loop completes without an exception, its record list is
exactly the input scenes mapped to their records, in input order. -/
lemma processScenes_ok_records (client : Int → Int → ApiResult) (existing : List String) :
    ∀ (l : List SceneRequest) (recs : List GeneratedImageRecord),
      (processScenes client existing l).result = Except.ok recs →
      recs = l.map mkRecord := by
  intro l
  induction l with
  | nil =>
    intro recs h
    simp [processScenes] at h
    simp [← h]
  | cons p rest ih =>
    intro recs h
    simp only [processScenes] at h
    by_cases hmem : artifactFilename p.scene_id ∈ existing
    · rw [if_pos hmem] at h
      dsimp only at h
      cases hr : (processScenes client existing rest).result with
      | error e =>
        rw [hr] at h
        simp [Except.map] at h
      | ok recs2 =>
        rw [hr] at h
        simp only [Except.map, Except.ok.injEq] at h
        rw [← h, ih recs2 hr]
        simp
    · rw [if_neg hmem] at h
      split at h
      · dsimp only at h
        cases hr : (processScenes client existing rest).result with
        | error e =>
          rw [hr] at h
          simp [Except.map] at h
        | ok recs2 =>
          rw [hr] at h
          simp only [Except.map, Except.ok.injEq] at h
          rw [← h, ih recs2 hr]
          simp
      · dsimp only at h
        cases hr : (processScenes client existing rest).result with
        | error e =>
          rw [hr] at h
          simp [Except.map] at h
        | ok recs2 =>
          rw [hr] at h
          simp only [Except.map, Except.ok.injEq] at h
          rw [← h, ih recs2 hr]
          simp
      · simp at h
      · simp at h

/-! ## Claim theorems about `generate_images` -/

/-- Claim C1: with the state slot present, no derived filename in the
existing-artifacts listing, and a client succeeding on each scene's first
attempt, `generate_images` returns a summary whose `total_images` equals the
number of input scenes and whose `generated_images` is exactly one record per
input scene (so also of that length); an empty input is the `prompts = []`
instance, yielding `total_images = 0` and an empty record list. -/
theorem generate_images_count_invariant (ctx : ToolContext) (prompts : List SceneRequest)
    (pay : Int → String)
    (hstate : ctx.prompt_builder_output = some (some prompts))
    (hfresh : ∀ p ∈ prompts, artifactFilename p.scene_id ∉ ctx.artifacts)
    (hclient : ∀ p ∈ prompts, ctx.client p.scene_id 0 = ApiResult.ok (pay p.scene_id)) :
    (generate_images ctx).1 =
      Except.ok ⟨prompts.length, prompts.map mkRecord, "complete"⟩ ∧
    (prompts.map mkRecord).length = prompts.length := by
  refine ⟨?_, List.length_map _ _⟩
  unfold generate_images
  rw [hstate]
  dsimp only
  rw [processScenes_all_fresh ctx.client ctx.artifacts pay prompts hfresh hclient]
  dsimp only
  simp [List.length_map]

theorem generate_images_count_invariant_witness :
    (∀ p ∈ ([⟨1, ['c']⟩, ⟨2, ['d']⟩] : List SceneRequest),
        artifactFilename p.scene_id ∉ ([] : List String)) ∧
    (generate_images ⟨some (some [⟨1, ['c']⟩, ⟨2, ['d']⟩]), [],
        fun _ _ => ApiResult.ok "aGk="⟩).1 =
      Except.ok ⟨([⟨1, ['c']⟩, ⟨2, ['d']⟩] : List SceneRequest).length,
        ([⟨1, ['c']⟩, ⟨2, ['d']⟩] : List SceneRequest).map mkRecord, "complete"⟩ ∧
    (([⟨1, ['c']⟩, ⟨2, ['d']⟩] : List SceneRequest).map mkRecord).length =
      ([⟨1, ['c']⟩, ⟨2, ['d']⟩] : List SceneRequest).length :=
  ⟨by decide,
   generate_images_count_invariant _ _ (fun _ => "aGk=") rfl (by decide) (by decide)⟩

/-- Claim C2: whenever `generate_images` returns a summary, the records of
`generated_images` are the input scenes in input order (each mapped to its
record), regardless of which scenes were skipped as already existing and which
were freshly generated. -/
theorem generate_images_order_preserved (ctx : ToolContext) (prompts : List SceneRequest)
    (summary : GenerationSummary)
    (hstate : ctx.prompt_builder_output = some (some prompts))
    (hok : (generate_images ctx).1 = Except.ok summary) :
    summary.generated_images = prompts.map mkRecord := by
  unfold generate_images at hok
  rw [hstate] at hok
  dsimp only at hok
  cases hr : (processScenes ctx.client ctx.artifacts prompts).result with
  | error e =>
    rw [hr] at hok
    simp at hok
  | ok recs =>
    rw [hr] at hok
    simp only [Except.ok.injEq] at hok
    rw [← hok]
    exact processScenes_ok_records ctx.client ctx.artifacts prompts recs hr

theorem generate_images_order_preserved_witness :
    (GenerationSummary.mk 2 [mkRecord ⟨2, ['b']⟩, mkRecord ⟨1, ['a']⟩]
        "complete").generated_images =
      ([⟨2, ['b']⟩, ⟨1, ['a']⟩] : List SceneRequest).map mkRecord :=
  generate_images_order_preserved
    ⟨some (some [⟨2, ['b']⟩, ⟨1, ['a']⟩]), [artifactFilename 2],
      fun _ _ => ApiResult.ok "aGk="⟩
    [⟨2, ['b']⟩, ⟨1, ['a']⟩]
    ⟨2, [mkRecord ⟨2, ['b']⟩, mkRecord ⟨1, ['a']⟩], "complete"⟩
    rfl rfl

/-- Claim C3: when every scene's derived filename is already in the
existing-artifacts listing, `generate_images` performs zero generation calls,
zero saves and zero sleeps, yet returns one record per scene (prompt truncated
to 100 characters); the returned pair is a fixed value independent of the
generation client, so a second run on the same state returns the same
summary. -/
theorem generate_images_idempotent_skip (ctx : ToolContext) (prompts : List SceneRequest)
    (hstate : ctx.prompt_builder_output = some (some prompts))
    (hall : ∀ p ∈ prompts, artifactFilename p.scene_id ∈ ctx.artifacts) :
    generate_images ctx =
      (Except.ok ⟨prompts.length, prompts.map mkRecord, "complete"⟩,
       ⟨true, [], 0, [], []⟩) := by
  unfold generate_images
  rw [hstate]
  dsimp only
  rw [processScenes_all_existing ctx.client ctx.artifacts prompts hall]
  dsimp only
  simp [List.length_map]

theorem generate_images_idempotent_skip_witness :
    (∀ p ∈ ([⟨1, ['a']⟩] : List SceneRequest),
        artifactFilename p.scene_id ∈ [artifactFilename 1]) ∧
    generate_images ⟨some (some [⟨1, ['a']⟩]), [artifactFilename 1],
        fun _ _ => ApiResult.rateLimit⟩ =
      (Except.ok ⟨([⟨1, ['a']⟩] : List SceneRequest).length,
        ([⟨1, ['a']⟩] : List SceneRequest).map mkRecord, "complete"⟩,
       ⟨true, [], 0, [], []⟩) :=
  ⟨by decide, generate_images_idempotent_skip _ _ rfl (by decide)⟩

/-- Claim C4: for a single fresh scene, the record's prompt is the enhanced
prompt truncated to its first 100 characters while the generation call
received the full untruncated prompt; truncation yields exactly 100 characters
when the prompt is longer than 100, and leaves shorter prompts unchanged. -/
theorem generate_images_prompt_truncation (ctx : ToolContext) (p : SceneRequest) (s : String)
    (hstate : ctx.prompt_builder_output = some (some [p]))
    (hfresh : artifactFilename p.scene_id ∉ ctx.artifacts)
    (hclient : ctx.client p.scene_id 0 = ApiResult.ok s) :
    generate_images ctx =
      (Except.ok ⟨1, [⟨p.scene_id, p.enhanced_prompt.take 100, artifactFilename p.scene_id⟩],
        "complete"⟩,
       ⟨true, [(p.scene_id, p.enhanced_prompt)], 1, [],
        [(artifactFilename p.scene_id, some (b64decode s))]⟩) ∧
    (100 < p.enhanced_prompt.length → (p.enhanced_prompt.take 100).length = 100) ∧
    (p.enhanced_prompt.length ≤ 100 → p.enhanced_prompt.take 100 = p.enhanced_prompt) := by
  refine ⟨?_, ?_, List.take_of_length_le⟩
  · unfold generate_images
    rw [hstate]
    dsimp only
    rw [processScenes_all_fresh ctx.client ctx.artifacts (fun _ => s) [p]
      (by simpa using hfresh) (by simpa using hclient)]
    dsimp only
    simp [mkRecord]
  · intro h
    rw [List.length_take]
    omega

theorem generate_images_prompt_truncation_witness :
    generate_images ⟨some (some [⟨3, List.replicate 150 'x'⟩]), [],
        fun _ _ => ApiResult.ok "aGk="⟩ =
      (Except.ok ⟨1, [⟨3, (List.replicate 150 'x').take 100, artifactFilename 3⟩],
        "complete"⟩,
       ⟨true, [(3, List.replicate 150 'x')], 1, [],
        [(artifactFilename 3, some (b64decode "aGk="))]⟩) ∧
    (100 < (List.replicate 150 'x').length → ((List.replicate 150 'x').take 100).length = 100) ∧
    ((List.replicate 150 'x').length ≤ 100 →
      (List.replicate 150 'x').take 100 = List.replicate 150 'x') :=
  generate_images_prompt_truncation _ ⟨3, List.replicate 150 'x'⟩ "aGk="
    rfl (by decide) rfl

/-- Claim C9: the existing-artifacts listing is taken once before the loop and
never updated within the run, so two scenes sharing a scene id (whose artifact
does not pre-exist) both get generated: two generation calls with the same
scene id, two saves under the same filename, and two records in the summary. -/
theorem generate_images_duplicate_scene_ids (ctx : ToolContext) (p1 p2 : SceneRequest)
    (s : String)
    (hsid : p2.scene_id = p1.scene_id)
    (hstate : ctx.prompt_builder_output = some (some [p1, p2]))
    (hfresh : artifactFilename p1.scene_id ∉ ctx.artifacts)
    (hclient : ctx.client p1.scene_id 0 = ApiResult.ok s) :
    generate_images ctx =
      (Except.ok ⟨2, [mkRecord p1, mkRecord p2], "complete"⟩,
       ⟨true, [(p1.scene_id, p1.enhanced_prompt), (p2.scene_id, p2.enhanced_prompt)], 2, [],
        [(artifactFilename p1.scene_id, some (b64decode s)),
         (artifactFilename p1.scene_id, some (b64decode s))]⟩) := by
  unfold generate_images
  rw [hstate]
  dsimp only
  rw [processScenes_all_fresh ctx.client ctx.artifacts (fun _ => s) [p1, p2]
    (by
      intro q hq
      simp only [List.mem_cons, List.not_mem_nil, or_false] at hq
      rcases hq with rfl | rfl
      · exact hfresh
      · rw [hsid]; exact hfresh)
    (by
      intro q hq
      simp only [List.mem_cons, List.not_mem_nil, or_false] at hq
      rcases hq with rfl | rfl
      · exact hclient
      · rw [hsid]; exact hclient)]
  dsimp only
  simp [hsid]

theorem generate_images_duplicate_scene_ids_witness :
    (SceneRequest.mk 4 ['b']).scene_id = (SceneRequest.mk 4 ['a']).scene_id ∧
    generate_images ⟨some (some [⟨4, ['a']⟩, ⟨4, ['b']⟩]), [],
        fun _ _ => ApiResult.ok "aGk="⟩ =
      (Except.ok ⟨2, [mkRecord ⟨4, ['a']⟩, mkRecord ⟨4, ['b']⟩], "complete"⟩,
       ⟨true, [(4, ['a']), (4, ['b'])], 2, [],
        [(artifactFilename 4, some (b64decode "aGk=")),
         (artifactFilename 4, some (b64decode "aGk="))]⟩) :=
  ⟨rfl,
   generate_images_duplicate_scene_ids _ ⟨4, ['a']⟩ ⟨4, ['b']⟩ "aGk="
     rfl rfl (by decide) rfl⟩

/-- Claim C8 (behaviour at the failing inputs): when the state has no
`prompt_builder_output` slot, `generate_images` raises `AttributeError`
(calling `.get` on `None`) before the artifact listing; when the slot exists
but has no `optimized_prompts` field, it raises `TypeError` (iterating `None`)
only after `list_artifacts()` was already called; in neither case is the
documented `KeyError` raised, and in neither case is a generation attempted or
an empty summary returned. -/
theorem generate_images_missing_state_errors :
    generate_images ⟨none, ["scene_1_image.jpeg"], fun _ _ => ApiResult.rateLimit⟩ =
      (Except.error PyError.attributeError, ⟨false, [], 0, [], []⟩) ∧
    generate_images ⟨some none, ["scene_1_image.jpeg"], fun _ _ => ApiResult.rateLimit⟩ =
      (Except.error PyError.typeError, ⟨true, [], 0, [], []⟩) ∧
    (generate_images ⟨none, ["scene_1_image.jpeg"], fun _ _ => ApiResult.rateLimit⟩).1 ≠
      Except.error PyError.keyError ∧
    (generate_images ⟨some none, ["scene_1_image.jpeg"], fun _ _ => ApiResult.rateLimit⟩).1 ≠
      Except.error PyError.keyError := by
  refine ⟨rfl, rfl, ?_, ?_⟩
  all_goals intro h
  all_goals simp [generate_images] at h
